import Mathlib

/-!
# Verification of the jumble offline cache and synchronization layer

A shallow embedding of the offline-storage service
(`src/services/offline-storage.service.ts`), the service-worker request
router (`public/sw.js`), and the offline-manager coordinator hook
(`useOfflineManager`), together with proofs of the testable properties
stated in the specification.

Conventions of the embedding:
* IndexedDB object stores become association lists keyed by the record's
  key field (`id` or `key`); `put` replaces the record with the same key,
  `get` looks the key up, `delete` removes it.
* `Date.now()` becomes an explicit `now : Nat` parameter (milliseconds).
* `Math.random().toString(36).substr(2, 9)` becomes an explicit random
  suffix parameter `rand : String`.
* Asynchronous operations become pure state transformers
  `StoreState → result × StoreState`.
-/

namespace Jumble

/-! ## Data model (offline-storage.service.ts) -/

/-- `PostData` from offline-storage.service.ts. -/
structure PostData where
  id : String
  content : String
  author : String
  createdAt : Nat
  tags : List String
  kind : Nat
  signature : Option String := none
  published : Option Bool := none
  synced : Option Bool := none
  deriving DecidableEq, Repr

/-- `OfflineDraft` from offline-storage.service.ts. -/
structure OfflineDraft where
  id : String
  content : String
  tags : List String
  kind : Nat
  createdAt : Nat
  lastModified : Nat
  targetRelays : Option (List String) := none
  deriving DecidableEq, Repr

/-- `CachedPost` from offline-storage.service.ts. -/
structure CachedPost where
  id : String
  data : PostData
  cachedAt : Nat
  expiresAt : Nat
  deriving DecidableEq, Repr

inductive Theme where
  | light | dark | auto
  deriving DecidableEq, Repr

inductive FontSize where
  | small | medium | large
  deriving DecidableEq, Repr

/-- `UserPreferences` from offline-storage.service.ts. -/
structure UserPreferences where
  theme : Theme
  fontSize : FontSize
  language : String
  defaultRelays : List String
  mutedUsers : List String
  mutedWords : List String
  deriving DecidableEq, Repr

/-- The record stored in the `preferences` table by `savePreferences`:
`{ key: 'user_preferences', data: preferences, updatedAt: Date.now() }`. -/
structure PreferenceRow where
  key : String
  data : UserPreferences
  updatedAt : Nat
  deriving DecidableEq, Repr

/-- A generic entry of the `cache` table (keyPath `key`, index `expiresAt`). -/
structure CacheEntry where
  key : String
  payload : String
  expiresAt : Nat
  deriving DecidableEq, Repr

/-- An entry of the `syncQueue` table (keyPath `id`, index `createdAt`). -/
structure SyncQueueEntry where
  id : String
  createdAt : Nat
  payload : String
  deriving DecidableEq, Repr

/-- The contents of the five IndexedDB object stores created by `init`. -/
structure StoreState where
  posts : List CachedPost
  drafts : List OfflineDraft
  preferences : List PreferenceRow
  cache : List CacheEntry
  syncQueue : List SyncQueueEntry
  deriving DecidableEq, Repr

/-! ## Generic keyed operations (the private put/get/delete helpers) -/

/-- IndexedDB `store.put`: replace the record with the same key, insert
otherwise. -/
def putKeyed (k : α → String) (l : List α) (r : α) : List α :=
  r :: l.filter (fun x => k x != k r)

/-- IndexedDB `store.get`: the record with the given key, if any. -/
def getKeyed (k : α → String) (l : List α) (key : String) : Option α :=
  l.find? (fun x => k x == key)

/-- IndexedDB `store.delete`: remove the record with the given key. -/
def delKeyed (k : α → String) (l : List α) (key : String) : List α :=
  l.filter (fun x => k x != key)

/-! ## Cache expiration constants (`CACHE_EXPIRATION`) -/

/-- `CACHE_EXPIRATION.POSTS`: 24 hours in milliseconds. -/
def POSTS_EXPIRATION : Nat := 24 * 60 * 60 * 1000

/-- `CACHE_EXPIRATION.DRAFTS`: 30 days in milliseconds. -/
def DRAFTS_EXPIRATION : Nat := 30 * 24 * 60 * 60 * 1000

/-- One day in milliseconds, for stating the draft-cleanup scenario. -/
def ONE_DAY : Nat := 24 * 60 * 60 * 1000

/-! ## Post storage operations -/

/-- `savePost`: wraps the payload in a `CachedPost` with
`cachedAt = Date.now()` and `expiresAt = Date.now() + CACHE_EXPIRATION.POSTS`
and `put`s it into the `posts` store. -/
def savePost (s : StoreState) (now : Nat) (post : PostData) : StoreState :=
  let cachedPost : CachedPost :=
    { id := post.id, data := post, cachedAt := now,
      expiresAt := now + POSTS_EXPIRATION }
  { s with posts := putKeyed CachedPost.id s.posts cachedPost }

/-- `getPost`: returns the payload when the cached record exists and
`cachedPost.expiresAt > Date.now()`; when the record exists but is
expired, deletes it and returns `null`; returns `null` when absent. -/
def getPost (s : StoreState) (now : Nat) (id : String) :
    Option PostData × StoreState :=
  match getKeyed CachedPost.id s.posts id with
  | some cachedPost =>
    if now < cachedPost.expiresAt then
      (some cachedPost.data, s)
    else
      (none, { s with posts := delKeyed CachedPost.id s.posts id })
  | none => (none, s)

/-- The cursor loop of `getPostsByAuthor`: while the cursor yields records
and `posts.length < limit`, push the payload of every record with
`expiresAt > Date.now()`. -/
def postsByAuthorGo (now limit : Nat) :
    List CachedPost → List PostData → List PostData
  | [], acc => acc
  | p :: ps, acc =>
    if acc.length < limit then
      if now < p.expiresAt then postsByAuthorGo now limit ps (acc ++ [p.data])
      else postsByAuthorGo now limit ps acc
    else acc

/-- The records the posts store's `author` index yields for a given
author key. `init` creates the index with keyPath `author`
(`postsStore.createIndex('author', 'author')`), but the records stored
in `posts` are the `CachedPost` wrappers `{id, data, cachedAt,
expiresAt}` built by `savePost`, which have no top-level `author`
property (the author sits at `data.author`). IndexedDB indexes a record
only when the index keyPath resolves on it, so the index holds no
entries and `index.openCursor(author)` yields nothing for any key. -/
def postsAuthorIndex (_posts : List CachedPost) (_author : String) :
    List CachedPost :=
  []

/-- `getPostsByAuthor`: opens `index('author').openCursor(author)` on
the posts store and collects up to `limit` unexpired payloads from the
records the index yields; the transaction is readonly, so the store is
returned unchanged. -/
def getPostsByAuthor (s : StoreState) (now : Nat) (author : String)
    (limit : Nat) : List PostData × StoreState :=
  (postsByAuthorGo now limit (postsAuthorIndex s.posts author) [], s)

/-- `getAllCachedPosts`: a full cursor over `posts` collecting the payload
of every record with `expiresAt > Date.now()`; readonly transaction, so
the store is returned unchanged. -/
def getAllCachedPosts (s : StoreState) (now : Nat) :
    List PostData × StoreState :=
  (((s.posts.filter (fun p => now < p.expiresAt)).map (·.data)), s)

/-! ## Draft operations -/

/-- The input of `saveDraft`
(`Omit<OfflineDraft, 'id' | 'createdAt' | 'lastModified'>`); `tags` and
`targetRelays` may be absent, `kind` may be the falsy `0`. -/
structure DraftInput where
  content : String
  tags : Option (List String) := none
  kind : Nat := 1
  targetRelays : Option (List String) := none
  deriving DecidableEq, Repr

/-- The draft id generated by `saveDraft`:
``draft_${Date.now()}_${randomSuffix}``. -/
def mkDraftId (now : Nat) (rand : String) : String :=
  "draft_" ++ toString now ++ "_" ++ rand

/-- `saveDraft`: builds an `OfflineDraft` with a generated id, defaulting
falsy fields (`draft.tags || []`, `draft.kind || 1`), `put`s it into the
`drafts` store and returns its id. -/
def saveDraft (s : StoreState) (now : Nat) (rand : String)
    (draft : DraftInput) : String × StoreState :=
  let offlineDraft : OfflineDraft :=
    { id := mkDraftId now rand,
      content := draft.content,
      tags := draft.tags.getD [],
      kind := if draft.kind = 0 then 1 else draft.kind,
      targetRelays := draft.targetRelays,
      createdAt := now,
      lastModified := now }
  (offlineDraft.id,
   { s with drafts := putKeyed OfflineDraft.id s.drafts offlineDraft })

/-- `getDraft`: a point read of the `drafts` store. -/
def getDraft (s : StoreState) (id : String) : Option OfflineDraft :=
  getKeyed OfflineDraft.id s.drafts id

/-- `getAllDrafts`: collects every draft and sorts by `lastModified`
descending (`drafts.sort((a, b) => b.lastModified - a.lastModified)`). -/
def getAllDrafts (s : StoreState) : List OfflineDraft :=
  (s.drafts.mergeSort (fun a b => b.lastModified ≤ a.lastModified))

/-- `deleteDraft`: a point delete of the `drafts` store. -/
def deleteDraft (s : StoreState) (id : String) : StoreState :=
  { s with drafts := delKeyed OfflineDraft.id s.drafts id }

/-! ## Preference operations -/

/-- `savePreferences`: `put`s
`{ key: 'user_preferences', data: preferences, updatedAt: Date.now() }`
into the `preferences` store. -/
def savePreferences (s : StoreState) (now : Nat)
    (preferences : UserPreferences) : StoreState :=
  let row : PreferenceRow :=
    { key := "user_preferences", data := preferences, updatedAt := now }
  { s with preferences := putKeyed PreferenceRow.key s.preferences row }

/-- `getPreferences`: reads the `user_preferences` record and projects its
`data` field, `null` when absent. -/
def getPreferences (s : StoreState) : Option UserPreferences :=
  (getKeyed PreferenceRow.key s.preferences "user_preferences").map (·.data)

/-! ## Expiration-driven cleanup -/

/-- `cleanupByIndex`: a cursor over the whole index deleting every record
whose indexed field is `< threshold`; expressed as the keep-filter of the
generic field projection. -/
def cleanupByIndex (field : α → Nat) (threshold : Nat) (l : List α) :
    List α :=
  l.filter (fun x => !(field x < threshold))

/-- `cleanupExpiredData`: deletes posts and cache entries with
`expiresAt < now` and drafts with
`lastModified < Date.now() - CACHE_EXPIRATION.DRAFTS`. -/
def cleanupExpiredData (s : StoreState) (now : Nat) : StoreState :=
  { s with
    posts := cleanupByIndex CachedPost.expiresAt now s.posts,
    drafts := cleanupByIndex OfflineDraft.lastModified
      (now - DRAFTS_EXPIRATION) s.drafts,
    cache := cleanupByIndex CacheEntry.expiresAt now s.cache }

/-! ## Service-worker request router (public/sw.js)

A request is modelled in pre-parsed form: the fields below are the
components `new URL(request.url)` exposes to the classifier
(`origin`, `hostname`, `pathname`, the set of query-parameter keys),
together with the raw url string and the method. -/

structure SWRequest where
  url : String
  origin : String
  hostname : String
  pathname : String
  searchKeys : List String
  method : String
  deriving DecidableEq, Repr

/-- JS `String.prototype.includes`: `sub` occurs as a contiguous substring
of `s`. -/
def strIncludes (s sub : String) : Bool :=
  s.data.tails.any (fun t => sub.data.isPrefixOf t)

/-- A case-insensitive extension test: the regex
`/\.(e1|...|en)$/i.test(pathname)` of the classifier. -/
def hasExtOf (pathname : String) (exts : List String) : Bool :=
  exts.any (fun e => ("." ++ e).data.isSuffixOf (pathname.data.map Char.toLower))

/-- `isImageRequest`. -/
def isImageRequest (r : SWRequest) : Bool :=
  hasExtOf r.pathname ["png", "jpg", "jpeg", "svg", "gif", "webp", "ico", "bmp"]

/-- `isFontRequest`. -/
def isFontRequest (r : SWRequest) : Bool :=
  hasExtOf r.pathname ["woff", "woff2", "ttf", "eot", "otf"]

/-- `isStaticRequest`. -/
def isStaticRequest (r : SWRequest) : Bool :=
  hasExtOf r.pathname ["js", "css", "html", "json", "webmanifest"] ||
  r.pathname == "/" ||
  ".html".data.isSuffixOf r.pathname.data

/-- `isAPIRequest`: the pathname contains an API/RPC marker. -/
def isAPIRequest (r : SWRequest) : Bool :=
  strIncludes r.pathname "/api/" ||
  strIncludes r.pathname "/v1/" ||
  strIncludes r.pathname "/rpc/"

/-- `isPostRequest`. -/
def isPostRequest (r : SWRequest) : Bool :=
  strIncludes r.pathname "/relay/" ||
  strIncludes r.pathname "/nostr" ||
  r.searchKeys.contains "event" ||
  r.searchKeys.contains "post" ||
  strIncludes r.pathname "/posts/"

/-- `isESMRequest`. -/
def isESMRequest (r : SWRequest) : Bool :=
  r.hostname == "esm.sh" ||
  r.hostname == "cdn.skypack.dev" ||
  r.hostname == "unpkg.com"

/-- The dispatch target chosen by the `fetch` event listener. -/
inductive Handler where
  /-- `handleImageRequest` (Cache-First, image bucket). -/
  | image
  /-- `handleFontRequest` (Cache-First, font bucket). -/
  | font
  /-- `handleStaticRequest` (Stale-While-Revalidate, static bucket). -/
  | staticFile
  /-- `handleAPIRequest` (Network-First with timeout, api bucket). -/
  | api
  /-- `handlePostRequest` (read-through with background refresh). -/
  | post
  /-- `handleNetworkFirstRequest` (default same-origin). -/
  | networkFirst
  /-- `handleESMRequest` (Cache-First, esm bucket). -/
  | esm
  /-- `handleCrossOriginRequest` (Stale-While-Revalidate, default bucket). -/
  | crossOrigin
  /-- No `respondWith`: the request passes through uncached. -/
  | passthrough
  deriving DecidableEq, Repr

/-- The classification performed by the `fetch` event listener, evaluated
in source order: non-HTTP schemes pass through; same-origin requests are
tested image → font → static → api → post → default; cross-origin
requests are tested esm → default cross-origin. -/
def classify (selfOrigin : String) (r : SWRequest) : Handler :=
  if !("http".data.isPrefixOf r.url.data) then .passthrough
  else if r.origin == selfOrigin then
    if isImageRequest r then .image
    else if isFontRequest r then .font
    else if isStaticRequest r then .staticFile
    else if isAPIRequest r then .api
    else if isPostRequest r then .post
    else .networkFirst
  else if isESMRequest r then .esm
  else .crossOrigin

/-- A response, reduced to the fields the handlers inspect/store. -/
structure SWResponse where
  ok : Bool
  body : String
  deriving DecidableEq, Repr

/-- A named cache bucket: request url ↦ most recent stored response. -/
def Bucket := List (String × SWResponse)

instance : DecidableEq Bucket := by
  unfold Bucket
  infer_instance

/-- `cache.match(request)`. -/
def bucketMatch (b : Bucket) (url : String) : Option SWResponse :=
  (b.find? (fun e => e.1 == url)).map (·.2)

/-- `cache.put(request, response)`. -/
def bucketPut (b : Bucket) (url : String) (resp : SWResponse) : Bucket :=
  (url, resp) :: b.filter (fun e => e.1 != url)

/-- The outcome of `fetch(request)` as observed by a handler: either a
response arrives (possibly with a non-ok status), or the fetch rejects /
the 5-second timeout of `handleAPIRequest` wins the race first. -/
inductive NetOutcome where
  | resp (r : SWResponse)
  | netFail
  deriving DecidableEq, Repr

/-- `handleAPIRequest` (Network-First with 5s timeout): a status-ok
response is stored in the api bucket and returned; a non-ok response, a
fetch failure or a timeout falls back to the cached entry when present
and otherwise throws `No cached response available`. -/
def handleAPIRequest (b : Bucket) (url : String) (net : NetOutcome) :
    Except String SWResponse × Bucket :=
  let cachedResponse := bucketMatch b url
  match net with
  | .resp r =>
    if r.ok then (Except.ok r, bucketPut b url r)
    else
      match cachedResponse with
      | some c => (Except.ok c, b)
      | none => (Except.error "No cached response available", b)
  | .netFail =>
    match cachedResponse with
    | some c => (Except.ok c, b)
    | none => (Except.error "No cached response available", b)

/-- `handlePostRequest` (read-through with background refresh): a GET with
a bucket hit returns the hit while the background fetch overwrites the
bucket entry on a status-ok response; a GET miss awaits the network,
caching an ok response; a non-GET always awaits the network, never
caches, and never answers from the bucket. -/
def handlePostRequest (b : Bucket) (url method : String)
    (net : NetOutcome) : Except String SWResponse × Bucket :=
  let cachedResponse := bucketMatch b url
  if method == "GET" then
    match cachedResponse with
    | some c =>
      let refreshed :=
        match net with
        | .resp r => if r.ok then bucketPut b url r else b
        | .netFail => b
      (Except.ok c, refreshed)
    | none =>
      match net with
      | .resp r =>
        if r.ok then (Except.ok r, bucketPut b url r)
        else (Except.error "No cached response available", b)
      | .netFail => (Except.error "No cached response available", b)
  else
    match net with
    | .resp r =>
      if r.ok then (Except.ok r, b)
      else (Except.error "No cached response available", b)
    | .netFail => (Except.error "No cached response available", b)

/-! ## Offline coordinator (`useOfflineManager`) -/

/-- The `OfflineState` of the hook, together with the store it reads. -/
structure CoordinatorState where
  isOnline : Bool
  isOfflineMode : Bool
  hasOfflineData : Bool
  pendingSync : Nat
  store : StoreState
  deriving DecidableEq, Repr

/-- `updateOnlineStatus`: recomputes the snapshot from the connectivity
signal and the store — `pendingSync` is the number of drafts,
`hasOfflineData` holds when any unexpired cached post or any draft
exists. -/
def updateOnlineStatus (c : CoordinatorState) (online : Bool) (now : Nat) :
    CoordinatorState :=
  let cachedPosts := (getAllCachedPosts c.store now).1
  let allDrafts := getAllDrafts c.store
  { c with
    isOnline := online,
    hasOfflineData := cachedPosts.length > 0 || allDrafts.length > 0,
    pendingSync := allDrafts.length }

/-- The verdict of the external sync executor. -/
inductive SyncResult where
  | success
  | failure
  deriving DecidableEq, Repr

/-- Modelled from the spec: the sync-queue draining executor is absent
from the repository (`syncPendingData` leaves it as a `TODO` stub and the
spec designates queue draining an external collaborator). Per the spec,
`triggerSync` is a no-op returning failure when the coordinator is
offline; otherwise it hands the pending entries to the executor, drains
them on success, and recomputes the snapshot. -/
def triggerSync (c : CoordinatorState) (online : Bool) (now : Nat)
    (executor : SyncResult) : Bool × CoordinatorState :=
  if !c.isOnline then (false, c)
  else
    match executor with
    | .success =>
      let drained := { c with store := { c.store with drafts := [] } }
      (true, updateOnlineStatus drained online now)
    | .failure => (false, updateOnlineStatus c online now)

/-! ## Decimal rendering of timestamps

`mkDraftId` embeds `Date.now().toString()`, i.e. `Nat.repr`.  To reason
about draft-id collisions we characterize `Nat.repr` by the recursive
digit string below and prove (later) that `Nat.toDigits` produces it. -/

/-- The decimal digit string of `n`, most significant digit first. -/
def reprDigits (n : Nat) : List Char :=
  if n < 10 then [Nat.digitChar n]
  else reprDigits (n / 10) ++ [Nat.digitChar (n % 10)]
termination_by n
decreasing_by exact Nat.div_lt_self (by omega) (by omega)

/-- The numeric value of a decimal digit character. -/
def charVal (c : Char) : Nat :=
  c.toNat - 48

/-! ## Concrete fixtures for witnesses and counterexamples -/

/-- A sample post payload. -/
def wPost : PostData :=
  { id := "p1", content := "hello", author := "alice", createdAt := 3,
    tags := ["t"], kind := 1 }

/-- A cached row for `wPost` that expires at time 5. -/
def wCachedPost : CachedPost :=
  { id := "p1", data := wPost, cachedAt := 0, expiresAt := 5 }

/-- A second sample payload by the same author. -/
def wPost2 : PostData :=
  { id := "p2", content := "again", author := "alice", createdAt := 4,
    tags := [], kind := 1 }

/-- A cached row for `wPost2` that expires at time 9. -/
def wCachedPost2 : CachedPost :=
  { id := "p2", data := wPost2, cachedAt := 0, expiresAt := 9 }

/-- A draft last modified at time 0. -/
def wDraftOld : OfflineDraft :=
  { id := "d31", content := "old", tags := [], kind := 1, createdAt := 0,
    lastModified := 0 }

/-- A draft last modified two days after epoch. -/
def wDraftNew : OfflineDraft :=
  { id := "d29", content := "new", tags := [], kind := 1, createdAt := 0,
    lastModified := 2 * ONE_DAY }

/-- A store holding the sample posts and drafts. -/
def wStore : StoreState :=
  { posts := [wCachedPost, wCachedPost2],
    drafts := [wDraftOld, wDraftNew],
    preferences := [], cache := [], syncQueue := [] }

/-- Sample preferences with empty muted sets. -/
def wPrefs : UserPreferences :=
  { theme := Theme.dark, fontSize := FontSize.medium, language := "en",
    defaultRelays := ["wss://relay.example"], mutedUsers := [],
    mutedWords := [] }

/-- A cross-origin request whose path contains the `/api/` marker. -/
def wCrossApiReq : SWRequest :=
  { url := "https://other.example/api/feed",
    origin := "https://other.example",
    hostname := "other.example",
    pathname := "/api/feed",
    searchKeys := [], method := "GET" }

/-- A same-origin request classified as api. -/
def wApiReq : SWRequest :=
  { url := "https://jumble.social/api/feed",
    origin := "https://jumble.social",
    hostname := "jumble.social",
    pathname := "/api/feed",
    searchKeys := [], method := "GET" }

/-- The origin the service worker runs on, for the concrete requests. -/
def wSelfOrigin : String := "https://jumble.social"

/-- A same-origin request whose path contains the `/api/` marker but also
matches the static-extension pattern. -/
def wStaticApiReq : SWRequest :=
  { url := "https://jumble.social/api/config.json",
    origin := "https://jumble.social",
    hostname := "jumble.social",
    pathname := "/api/config.json",
    searchKeys := [], method := "GET" }

/-- A coordinator that is online with the three pending drafts of the
offline-sync scenario. -/
def wCoordinator : CoordinatorState :=
  { isOnline := true, isOfflineMode := false, hasOfflineData := true,
    pendingSync := 3,
    store := { posts := [], preferences := [], cache := [], syncQueue := [],
               drafts := [
      { id := "a", content := "1", tags := [], kind := 1, createdAt := 0,
        lastModified := 1 },
      { id := "b", content := "2", tags := [], kind := 1, createdAt := 0,
        lastModified := 2 },
      { id := "c", content := "3", tags := [], kind := 1, createdAt := 0,
        lastModified := 3 }] } }

/-- The same coordinator while offline. -/
def wCoordinatorOff : CoordinatorState :=
  { wCoordinator with isOnline := false }

/-- A store with every table empty. -/
def wEmptyStore : StoreState :=
  { posts := [], drafts := [], preferences := [], cache := [],
    syncQueue := [] }

/-! ## Generic keyed-store lemmas -/

theorem getKeyed_putKeyed_self (k : α → String) (l : List α) (r : α) :
    getKeyed k (putKeyed k l r) (k r) = some r := by
  simp [getKeyed, putKeyed, List.find?_cons]

theorem getKeyed_delKeyed_self (k : α → String) (l : List α) (key : String) :
    getKeyed k (delKeyed k l key) key = none := by
  simp only [getKeyed, delKeyed, List.find?_eq_none, List.mem_filter]
  intro x hx
  simpa using hx.2

theorem filter_idem (p : α → Bool) (l : List α) :
    (l.filter p).filter p = l.filter p := by
  induction l with
  | nil => rfl
  | cons x xs ih =>
    cases h : p x <;> simp [List.filter_cons, h, ih]

/-- C1: for every post stored in the posts table, `getPost` returns the
payload iff `now < expiresAt`; an expired read returns absent, deletes
the row, and a second read at any later time finds no row. -/
theorem getPost_expiry_spec (s : StoreState) (now : Nat) (id : String)
    (cp : CachedPost)
    (hstored : getKeyed CachedPost.id s.posts id = some cp) :
    ((getPost s now id).1 = some cp.data ↔ now < cp.expiresAt) ∧
    (¬ now < cp.expiresAt →
      (getPost s now id).1 = none ∧
      getKeyed CachedPost.id (getPost s now id).2.posts id = none ∧
      ∀ later : Nat, (getPost (getPost s now id).2 later id).1 = none) := by
  by_cases h : now < cp.expiresAt
  · constructor
    · simp [getPost, hstored, h]
    · intro hc
      exact absurd h hc
  · have hsnd : (getPost s now id).2
        = { s with posts := delKeyed CachedPost.id s.posts id } := by
      simp [getPost, hstored, h]
    refine ⟨?_, fun _ => ⟨?_, ?_, ?_⟩⟩
    · simp [getPost, hstored, h]
    · simp [getPost, hstored, h]
    · rw [hsnd]
      exact getKeyed_delKeyed_self _ _ _
    · intro later
      rw [hsnd]
      simp [getPost, getKeyed_delKeyed_self]

theorem getPost_expiry_spec_witness :
    ((getPost wStore 10 "p1").1 = some wCachedPost.data ↔
        10 < wCachedPost.expiresAt) ∧
    (¬ 10 < wCachedPost.expiresAt →
      (getPost wStore 10 "p1").1 = none ∧
      getKeyed CachedPost.id (getPost wStore 10 "p1").2.posts "p1" = none ∧
      ∀ later : Nat, (getPost (getPost wStore 10 "p1").2 later "p1").1 = none) :=
  getPost_expiry_spec wStore 10 "p1" wCachedPost (by decide)

/-- C4: running `cleanupExpired(now)` twice with no intervening writes
leaves the posts, cache, and drafts tables exactly as one run does. -/
theorem cleanupExpired_idempotent (s : StoreState) (now : Nat) :
    (cleanupExpiredData (cleanupExpiredData s now) now).posts
        = (cleanupExpiredData s now).posts ∧
    (cleanupExpiredData (cleanupExpiredData s now) now).drafts
        = (cleanupExpiredData s now).drafts ∧
    (cleanupExpiredData (cleanupExpiredData s now) now).cache
        = (cleanupExpiredData s now).cache := by
  refine ⟨?_, ?_, ?_⟩ <;>
    simp [cleanupExpiredData, cleanupByIndex, filter_idem]

/-- C5: `savePreferences(P)` followed by `getPreferences()` returns `P`,
for every preference record, including empty muted-user/word sets. -/
theorem savePreferences_roundtrip (s : StoreState) (now : Nat)
    (prefs : UserPreferences) :
    getPreferences (savePreferences s now prefs) = some prefs := by
  simp [getPreferences, savePreferences, getKeyed, putKeyed, List.find?_cons]

/-- C6: `cleanupExpired` removes every draft whose `lastModified` is
older than the 30-day retention window and retains every draft whose
`lastModified` is within the window; in particular a draft whose
`lastModified` is 31 days in the past is deleted and one 29 days in the
past remains in the store. -/
theorem draft_cleanup_window (s : StoreState) (now : Nat)
    (d : OfflineDraft) (hmem : d ∈ s.drafts) :
    (d.lastModified < now - DRAFTS_EXPIRATION →
      d ∉ (cleanupExpiredData s now).drafts) ∧
    (¬ d.lastModified < now - DRAFTS_EXPIRATION →
      d ∈ (cleanupExpiredData s now).drafts) ∧
    (d.lastModified + 31 * ONE_DAY = now →
      d ∉ (cleanupExpiredData s now).drafts) ∧
    (d.lastModified + 29 * ONE_DAY = now →
      d ∈ (cleanupExpiredData s now).drafts) := by
  have hout : d.lastModified < now - DRAFTS_EXPIRATION →
      d ∉ (cleanupExpiredData s now).drafts := by
    intro hold hmem'
    simp only [cleanupExpiredData, cleanupByIndex, List.mem_filter,
      Bool.not_eq_true', decide_eq_false_iff_not] at hmem'
    exact hmem'.2 hold
  have hin : ¬ d.lastModified < now - DRAFTS_EXPIRATION →
      d ∈ (cleanupExpiredData s now).drafts := by
    intro hyoung
    simp only [cleanupExpiredData, cleanupByIndex, List.mem_filter,
      Bool.not_eq_true', decide_eq_false_iff_not]
    exact ⟨hmem, hyoung⟩
  refine ⟨hout, hin, ?_, ?_⟩
  · intro h31
    apply hout
    simp only [DRAFTS_EXPIRATION, ONE_DAY] at h31 ⊢
    omega
  · intro h29
    apply hin
    simp only [DRAFTS_EXPIRATION, ONE_DAY] at h29 ⊢
    omega

theorem draft_cleanup_window_witness :
    wDraftOld ∉ (cleanupExpiredData wStore (31 * ONE_DAY)).drafts ∧
    wDraftNew ∈ (cleanupExpiredData wStore (31 * ONE_DAY)).drafts :=
  ⟨(draft_cleanup_window wStore (31 * ONE_DAY) wDraftOld (by decide)).2.2.1
      (by decide),
   (draft_cleanup_window wStore (31 * ONE_DAY) wDraftNew (by decide)).2.2.2
      (by decide)⟩

/-- C2 counterexample: a cross-origin request whose path contains the
`/api/` marker is dispatched to the Stale-While-Revalidate cross-origin
handler, not to the Network-First api handler — the claim's "regardless
of request origin" fails; moreover a same-origin `/api/` request whose
path also matches the earlier static pattern is dispatched to the static
handler. -/
theorem api_routing_counterexample :
    (isAPIRequest wCrossApiReq = true ∧
     classify wSelfOrigin wCrossApiReq = Handler.crossOrigin ∧
     Handler.crossOrigin ≠ Handler.api) ∧
    (isAPIRequest wStaticApiReq = true ∧
     classify wSelfOrigin wStaticApiReq = Handler.staticFile ∧
     Handler.staticFile ≠ Handler.api) := by
  decide

/-- C2 (amended): every same-origin HTTP request whose path contains an
API/RPC marker and which is not matched by the earlier image, font, or
static patterns is dispatched to `handleAPIRequest`, which attempts the
fetch bounded by the 5-second timeout, stores a status-ok response in
the api bucket and returns it, and on fetch failure or timeout returns
the cached bucket entry when present and otherwise fails. -/
theorem api_routing_network_first (selfOrigin : String) (r : SWRequest)
    (hhttp : "http".data.isPrefixOf r.url.data = true)
    (horigin : r.origin = selfOrigin)
    (hapi : isAPIRequest r = true)
    (himg : isImageRequest r = false)
    (hfont : isFontRequest r = false)
    (hstatic : isStaticRequest r = false) :
    classify selfOrigin r = Handler.api ∧
    (∀ (b : Bucket) (url : String) (resp : SWResponse), resp.ok = true →
      handleAPIRequest b url (NetOutcome.resp resp)
        = (Except.ok resp, bucketPut b url resp)) ∧
    (∀ (b : Bucket) (url : String) (c : SWResponse),
      bucketMatch b url = some c →
      handleAPIRequest b url NetOutcome.netFail = (Except.ok c, b)) ∧
    (∀ (b : Bucket) (url : String),
      bucketMatch b url = none →
      handleAPIRequest b url NetOutcome.netFail
        = (Except.error "No cached response available", b)) := by
  refine ⟨?_, ?_, ?_, ?_⟩
  · simp [classify, hhttp, horigin, hapi, himg, hfont, hstatic]
  · intro b url resp hok
    simp [handleAPIRequest, hok]
  · intro b url c hc
    simp [handleAPIRequest, hc]
  · intro b url hc
    simp [handleAPIRequest, hc]

theorem api_routing_network_first_witness :
    classify wSelfOrigin wApiReq = Handler.api :=
  (api_routing_network_first wSelfOrigin wApiReq (by decide) rfl
    (by decide) (by decide) (by decide) (by decide)).1

/-- C8: for a post-classified request whose method is not GET, the
handler leaves the bucket unchanged, its response is independent of the
bucket contents (never served from the bucket), and it returns the
network response exactly when it is status-ok, failing — with no cache
fallback — on a non-ok response, a fetch failure, or a timeout. -/
theorem post_nonget_frame (b b' : Bucket) (url method : String)
    (net : NetOutcome) (hm : method ≠ "GET") :
    (handlePostRequest b url method net).2 = b ∧
    (handlePostRequest b url method net).1
      = (handlePostRequest b' url method net).1 ∧
    (handlePostRequest b url method net).1
      = (match net with
         | NetOutcome.resp r =>
             if r.ok then Except.ok r
             else Except.error "No cached response available"
         | NetOutcome.netFail =>
             Except.error "No cached response available") := by
  have hm' : (method == "GET") = false := by
    simpa using hm
  cases net with
  | resp r =>
    cases hr : r.ok <;> simp [handlePostRequest, hm', hr]
  | netFail =>
    simp [handlePostRequest, hm']

theorem post_nonget_frame_witness :
    (handlePostRequest [] "u" "POST" NetOutcome.netFail).2 = [] ∧
    (handlePostRequest [] "u" "POST" NetOutcome.netFail).1
      = (handlePostRequest [("u", { ok := true, body := "x" })] "u" "POST"
          NetOutcome.netFail).1 ∧
    (handlePostRequest [] "u" "POST" NetOutcome.netFail).1
      = (match NetOutcome.netFail with
         | NetOutcome.resp r =>
             if r.ok then Except.ok r
             else Except.error "No cached response available"
         | NetOutcome.netFail =>
             Except.error "No cached response available") :=
  post_nonget_frame [] [("u", { ok := true, body := "x" })] "u" "POST"
    NetOutcome.netFail (by decide)

/-- C3: `triggerSync` is a no-op returning failure while the coordinator
is offline; when it is online with 3 pending drafts and the executor
succeeds, the recomputed snapshot has `pendingSyncCount = 0` and
`isOnline = true`. -/
theorem triggerSync_spec (c : CoordinatorState) (online : Bool)
    (now : Nat) (executor : SyncResult) :
    (c.isOnline = false → triggerSync c online now executor = (false, c)) ∧
    (c.isOnline = true → c.pendingSync = 3 →
      (triggerSync c true now SyncResult.success).1 = true ∧
      (triggerSync c true now SyncResult.success).2.pendingSync = 0 ∧
      (triggerSync c true now SyncResult.success).2.isOnline = true) := by
  constructor
  · intro hoff
    simp [triggerSync, hoff]
  · intro hon _
    simp [triggerSync, hon, updateOnlineStatus, getAllDrafts]

theorem triggerSync_spec_witness :
    (triggerSync wCoordinatorOff true 0 SyncResult.success
        = (false, wCoordinatorOff)) ∧
    ((triggerSync wCoordinator true 5 SyncResult.success).1 = true ∧
     (triggerSync wCoordinator true 5 SyncResult.success).2.pendingSync = 0 ∧
     (triggerSync wCoordinator true 5 SyncResult.success).2.isOnline = true) :=
  ⟨(triggerSync_spec wCoordinatorOff true 0 SyncResult.success).1 rfl,
   (triggerSync_spec wCoordinator true 5 SyncResult.success).2 rfl rfl⟩

/-- C9: evaluation at the failing input — the store holding the
unexpired post `wPost` by "alice". `getPostsByAuthor` returns no posts
at all, because the posts store's `author` index never resolves on the
stored `CachedPost` wrapper, even though the matching unexpired post is
stored; `getAllCachedPosts` does return exactly the stored unexpired
payloads, and neither read changes the store. -/
theorem getPostsByAuthor_empty_at_failing_input :
    (getPostsByAuthor wStore 0 "alice" 50).1 = [] ∧
    wCachedPost ∈ wStore.posts ∧
    (0 : Nat) < wCachedPost.expiresAt ∧
    wCachedPost.data.author = "alice" ∧
    (getPostsByAuthor wStore 0 "alice" 50).2 = wStore ∧
    (getAllCachedPosts wStore 0).1 = [wPost, wPost2] ∧
    (getAllCachedPosts wStore 0).2 = wStore := by
  decide

/-- C10: `saveDraft` substitutes defaults for falsy fields — a submitted
`kind = 0` is stored (and returned by `getDraft`) as `kind = 1`, absent
`tags` become `[]`, and the stored draft never has `kind = 0`. -/
theorem saveDraft_defaults (s : StoreState) (now : Nat) (rand : String)
    (draft : DraftInput) :
    ∃ stored : OfflineDraft,
      getDraft (saveDraft s now rand draft).2 (saveDraft s now rand draft).1
        = some stored ∧
      stored.kind = (if draft.kind = 0 then 1 else draft.kind) ∧
      stored.tags = draft.tags.getD [] ∧
      stored.kind ≠ 0 := by
  refine ⟨{ id := mkDraftId now rand, content := draft.content,
            tags := draft.tags.getD [],
            kind := if draft.kind = 0 then 1 else draft.kind,
            targetRelays := draft.targetRelays, createdAt := now,
            lastModified := now }, ?_, rfl, rfl, ?_⟩
  · simp [saveDraft, getDraft, getKeyed, putKeyed, List.find?_cons]
  · by_cases h : draft.kind = 0
    · simp [h]
    · simp [h]

/-! ## Decimal digit strings: lemmas towards draft-id uniqueness -/

theorem digitChar_eq_star (n : Nat) (h : 16 ≤ n) : Nat.digitChar n = '*' := by
  have ne : ∀ k : Nat, k < 16 → n ≠ k := fun k hk => by omega
  unfold Nat.digitChar
  rw [if_neg (ne 0 (by decide)), if_neg (ne 1 (by decide)),
      if_neg (ne 2 (by decide)), if_neg (ne 3 (by decide)),
      if_neg (ne 4 (by decide)), if_neg (ne 5 (by decide)),
      if_neg (ne 6 (by decide)), if_neg (ne 7 (by decide)),
      if_neg (ne 8 (by decide)), if_neg (ne 9 (by decide)),
      if_neg (ne 10 (by decide)), if_neg (ne 11 (by decide)),
      if_neg (ne 12 (by decide)), if_neg (ne 13 (by decide)),
      if_neg (ne 14 (by decide)), if_neg (ne 15 (by decide))]

theorem digitChar_ne_underscore (n : Nat) : Nat.digitChar n ≠ '_' := by
  by_cases h : n < 16
  · interval_cases n <;> decide
  · rw [digitChar_eq_star n (by omega)]
    decide

theorem reprDigits_eq (n : Nat) :
    reprDigits n = if n < 10 then [Nat.digitChar n]
      else reprDigits (n / 10) ++ [Nat.digitChar (n % 10)] := by
  conv_lhs => unfold reprDigits

theorem reprDigits_ne_nil (n : Nat) : reprDigits n ≠ [] := by
  rw [reprDigits_eq]
  by_cases h : n < 10
  · simp [h]
  · simp [h]

theorem reprDigits_no_underscore (n : Nat) :
    ∀ c ∈ reprDigits n, c ≠ '_' := by
  induction n using Nat.strong_induction_on with
  | _ n ih =>
    rw [reprDigits_eq]
    by_cases h : n < 10
    · rw [if_pos h]
      intro c hc
      rw [List.mem_singleton] at hc
      exact hc ▸ digitChar_ne_underscore n
    · rw [if_neg h]
      intro c hc
      rcases List.mem_append.mp hc with hm | hm
      · exact ih (n / 10) (Nat.div_lt_self (by omega) (by omega)) c hm
      · rw [List.mem_singleton] at hm
        exact hm ▸ digitChar_ne_underscore (n % 10)

theorem charVal_digitChar (a : Nat) (ha : a < 10) :
    charVal (Nat.digitChar a) = a := by
  interval_cases a <;> decide

theorem digitChar_inj_lt (a b : Nat) (ha : a < 10) (hb : b < 10)
    (h : Nat.digitChar a = Nat.digitChar b) : a = b := by
  have hva := charVal_digitChar a ha
  have hvb := charVal_digitChar b hb
  rw [h] at hva
  omega

theorem reprDigits_inj (m : Nat) :
    ∀ n, reprDigits m = reprDigits n → m = n := by
  induction m using Nat.strong_induction_on with
  | _ m ih =>
    intro n h
    rw [reprDigits_eq m, reprDigits_eq n] at h
    by_cases hm : m < 10 <;> by_cases hn : n < 10
    · rw [if_pos hm, if_pos hn] at h
      simp only [List.cons.injEq] at h
      exact digitChar_inj_lt m n hm hn h.1
    · rw [if_pos hm, if_neg hn] at h
      have hlen := congrArg List.length h
      simp only [List.length_singleton, List.length_append] at hlen
      have : reprDigits (n / 10) = [] :=
        List.length_eq_zero.mp (by omega)
      exact absurd this (reprDigits_ne_nil _)
    · rw [if_neg hm, if_pos hn] at h
      have hlen := congrArg List.length h
      simp only [List.length_singleton, List.length_append] at hlen
      have : reprDigits (m / 10) = [] :=
        List.length_eq_zero.mp (by omega)
      exact absurd this (reprDigits_ne_nil _)
    · rw [if_neg hm, if_neg hn] at h
      obtain ⟨h1, h2⟩ := List.append_inj' h rfl
      have hdiv : m / 10 = n / 10 :=
        ih (m / 10) (Nat.div_lt_self (by omega) (by omega)) (n / 10) h1
      simp only [List.cons.injEq] at h2
      have hmod : m % 10 = n % 10 :=
        digitChar_inj_lt _ _ (Nat.mod_lt _ (by omega)) (Nat.mod_lt _ (by omega)) h2.1
      omega

theorem toDigitsCore_eq (fuel : Nat) :
    ∀ (n : Nat) (ds : List Char), 0 < fuel → n < 10 ^ fuel →
      Nat.toDigitsCore 10 fuel n ds = reprDigits n ++ ds := by
  induction fuel with
  | zero =>
    intro n ds hfuel _
    omega
  | succ f ihf =>
    intro n ds _ hlt
    simp only [Nat.toDigitsCore]
    by_cases hdiv : n / 10 = 0
    · have hn : n < 10 := by omega
      rw [if_pos hdiv, reprDigits_eq, if_pos hn, Nat.mod_eq_of_lt hn]
      rfl
    · rw [if_neg hdiv]
      have hf : 0 < f := by
        rcases Nat.eq_zero_or_pos f with hf0 | hf
        · subst hf0
          simp only [pow_succ, pow_zero, one_mul] at hlt
          omega
        · exact hf
      have hlt' : n / 10 < 10 ^ f := by
        rw [pow_succ] at hlt
        exact (Nat.div_lt_iff_lt_mul (by omega)).mpr hlt
      rw [ihf (n / 10) (Nat.digitChar (n % 10) :: ds) hf hlt']
      have hn10 : ¬ n < 10 := by omega
      conv_rhs => rw [reprDigits_eq, if_neg hn10]
      rw [List.append_assoc]
      rfl

theorem repr_data_eq (n : Nat) : (Nat.repr n).data = reprDigits n := by
  have hlt : n < 10 ^ (n + 1) :=
    lt_of_lt_of_le (Nat.lt_pow_self (by omega) n)
      (Nat.pow_le_pow_right (by omega) (by omega))
  show (Nat.toDigits 10 n).asString.data = reprDigits n
  unfold Nat.toDigits
  rw [toDigitsCore_eq (n + 1) n [] (by omega) hlt]
  simp [List.asString]

theorem repr_no_underscore (n : Nat) :
    ∀ c ∈ (Nat.repr n).data, c ≠ '_' := by
  rw [repr_data_eq]
  exact reprDigits_no_underscore n

theorem repr_inj (m n : Nat) (h : Nat.repr m = Nat.repr n) : m = n := by
  apply reprDigits_inj m n
  rw [← repr_data_eq, ← repr_data_eq, h]

theorem sep_append_inj (c : Char) (l1 : List Char) :
    ∀ (l2 r1 r2 : List Char), (∀ x ∈ l1, x ≠ c) → (∀ x ∈ l2, x ≠ c) →
      l1 ++ c :: r1 = l2 ++ c :: r2 → l1 = l2 ∧ r1 = r2 := by
  induction l1 with
  | nil =>
    intro l2 r1 r2 _ h2 h
    cases l2 with
    | nil =>
      simpa using h
    | cons y ys =>
      simp only [List.nil_append, List.cons_append, List.cons.injEq] at h
      exact absurd h.1.symm (h2 y (by simp))
  | cons x xs ih =>
    intro l2 r1 r2 h1 h2 h
    cases l2 with
    | nil =>
      simp only [List.nil_append, List.cons_append, List.cons.injEq] at h
      exact absurd h.1 (h1 x (by simp))
    | cons y ys =>
      simp only [List.cons_append, List.cons.injEq] at h
      obtain ⟨hxy, hrest⟩ := h
      obtain ⟨hl, hr⟩ := ih ys r1 r2
        (fun z hz => h1 z (by simp [hz]))
        (fun z hz => h2 z (by simp [hz])) hrest
      exact ⟨by rw [hxy, hl], hr⟩

theorem mkDraftId_inj (now1 now2 : Nat) (rand1 rand2 : String)
    (h : mkDraftId now1 rand1 = mkDraftId now2 rand2) :
    now1 = now2 ∧ rand1 = rand2 := by
  have hd := congrArg String.data h
  simp only [mkDraftId, String.data_append] at hd
  have hd' : "draft_".data ++ ((Nat.repr now1).data ++ ('_' :: rand1.data))
      = "draft_".data ++ ((Nat.repr now2).data ++ ('_' :: rand2.data)) := by
    simpa [List.append_assoc] using hd
  have hcore := List.append_cancel_left hd'
  obtain ⟨hrepr, hrand⟩ := sep_append_inj '_' (Nat.repr now1).data
    (Nat.repr now2).data rand1.data rand2.data
    (repr_no_underscore now1) (repr_no_underscore now2) hcore
  constructor
  · exact repr_inj now1 now2 (String.ext hrepr)
  · exact String.ext hrand

/-- C7 counterexample: two `saveDraft` calls that observe the same
`Date.now()` timestamp and draw the same random suffix return the same
id, so ids are not unconditionally distinct across the store lifetime. -/
theorem saveDraft_id_counterexample :
    (saveDraft wEmptyStore 7 "4fzyo82mvyq" { content := "first" }).1
      = (saveDraft (saveDraft wEmptyStore 7 "4fzyo82mvyq"
          { content := "first" }).2 7 "4fzyo82mvyq" { content := "second" }).1 := by
  rfl

/-- C7 (amended): two `saveDraft` calls return distinct ids whenever they
do not observe both the same timestamp and the same random suffix — the
id `draft_${now}_${rand}` determines the pair `(now, rand)`. -/
theorem saveDraft_id_unique (s1 s2 : StoreState) (now1 now2 : Nat)
    (rand1 rand2 : String) (d1 d2 : DraftInput)
    (hdiff : ¬(now1 = now2 ∧ rand1 = rand2)) :
    (saveDraft s1 now1 rand1 d1).1 ≠ (saveDraft s2 now2 rand2 d2).1 := by
  intro h
  have h' : mkDraftId now1 rand1 = mkDraftId now2 rand2 := h
  exact hdiff (mkDraftId_inj now1 now2 rand1 rand2 h')

theorem saveDraft_id_unique_witness :
    (saveDraft wEmptyStore 7 "4fzyo82mvyq" { content := "first" }).1
      ≠ (saveDraft wEmptyStore 8 "4fzyo82mvyq" { content := "second" }).1 :=
  saveDraft_id_unique wEmptyStore wEmptyStore 7 8 "4fzyo82mvyq"
    "4fzyo82mvyq" { content := "first" } { content := "second" }
    (by decide)

end Jumble
